import Mathlib

/-!
Shallow embedding of the aggregation, pagination and caching logic of the
Mirakl profitability dashboard (`streamlit_app.py`): the three query
functions `kpis` (dailyKPIs), `top_skus` (topSKUs) and `order_lines_table`
(orderLineDetail), the UI pagination block, and the result-cache wrappers.
Monetary `numeric` values are modelled as `ℤ` in hundredths (exact decimal
arithmetic: the app only ever adds, subtracts and multiplies them, so
integers scaled to the cent embed SQL `numeric` exactly for every column in
the schema); `qty` is an unscaled integer count, so `qty * price` stays in
hundredths. Timestamps `created_at` are seconds (`ℕ`), calendar dates are
epoch-day numbers (`ℕ`).
-/

/-- Seconds in one day; `created_at::date` is integer division by this. -/
def secondsPerDay : ℕ := 86400

/-- Row of `mirakl.orders` (the columns the app reads). -/
structure Order where
  order_id : ℕ
  marketplace_code : String
  created_at : ℕ
  deriving DecidableEq

/-- Row of `mirakl.order_lines`. Nullable columns are `Option ℤ`. -/
structure OrderLine where
  order_id : ℕ
  marketplace_code : String
  line_id : ℕ
  sku : String
  qty : ℤ
  price_tax_excl : Option ℤ
  price_tax_incl : Option ℤ
  tax_amount : Option ℤ
  shipping_price : Option ℤ
  fees_total : Option ℤ
  deriving DecidableEq

/-- Row of `mirakl.refunds`. -/
structure Refund where
  order_id : ℕ
  line_id : ℕ
  marketplace_code : String
  created_at : ℕ
  amount_tax_excl : Option ℤ
  tax_amount : Option ℤ
  deriving DecidableEq

/-- The relational store the app queries (read-only). -/
structure Store where
  orders : List Order
  order_lines : List OrderLine
  refunds : List Refund
  deriving DecidableEq

/-- Date-window test `created_at >= %(start)s AND created_at < %(end)s`,
where the Python callers pass `end = end_dt + dt.timedelta(days=1)`,
so the window is `[start_d, end_d + 1)` in days. -/
def inWindowB (start_d end_d ts : ℕ) : Bool :=
  decide (start_d * secondsPerDay ≤ ts) && decide (ts < (end_d + 1) * secondsPerDay)

/-- SQL `created_at::date`. -/
def dayOf (ts : ℕ) : ℕ := ts / secondsPerDay

/-- SQL predicate `(%(sku)s is null OR sku = %(sku)s)`. -/
def skuMatch (p : Option String) (s : String) : Bool :=
  match p with
  | none => true
  | some v => decide (s = v)

/-- SQL predicate `(%(mkt)s is null OR marketplace_code = any(%(mkt)s))`. -/
def mktMatch (p : Option (List String)) (m : String) : Bool :=
  match p with
  | none => true
  | some cs => decide (m ∈ cs)

/-- Python `x if x else None` applied to an optional string parameter:
the empty string is falsy and becomes SQL NULL. -/
def normStr (s : Option String) : Option String :=
  match s with
  | some v => if v = "" then none else some v
  | none => none

/-- Python `xs if xs else None` applied to an optional list parameter:
the empty list is falsy and becomes SQL NULL. -/
def normList (l : Option (List String)) : Option (List String) :=
  match l with
  | some [] => none
  | x => x

/-- Composite refund/line key `(order_id, line_id, marketplace_code)`. -/
abbrev RKey : Type := ℕ × ℕ × String

/-- Key of a refund row. -/
def Refund.key (r : Refund) : RKey := (r.order_id, r.line_id, r.marketplace_code)

/-- SQL `coalesce(amount_tax_excl,0) + coalesce(tax_amount,0)` of one refund row. -/
def Refund.amount (r : Refund) : ℤ := r.amount_tax_excl.getD 0 + r.tax_amount.getD 0

/-- One accumulation step of the SQL `GROUP BY`: add `v` to the entry of
key `k`, appending a fresh entry when the key is new. -/
def aggInsert : List (RKey × ℤ) → RKey → ℤ → List (RKey × ℤ)
  | [], k, v => [(k, v)]
  | e :: es, k, v => if e.1 = k then (e.1, e.2 + v) :: es else e :: aggInsert es k v

/-- Rows of the aggregated refund table whose key is `k` (their amounts). -/
def aggLookup : List (RKey × ℤ) → RKey → List ℤ
  | [], _ => []
  | e :: es, k => if e.1 = k then e.2 :: aggLookup es k else aggLookup es k

/-- Fold a refund list into a grouped accumulator. -/
def foldAgg (acc : List (RKey × ℤ)) (rs : List Refund) : List (RKey × ℤ) :=
  rs.foldl (fun a r => aggInsert a r.key r.amount) acc

/-- The `refunds` CTE, identical in all three queries: refund rows restricted
to the date window, summed per (order_id, line_id, marketplace_code). -/
def refundsAgg (rs : List Refund) (start_d end_d : ℕ) : List (RKey × ℤ) :=
  foldAgg [] (rs.filter (fun r => inWindowB start_d end_d r.created_at))

/-- Refund amounts one line picks up through
`left join refunds r on (composite key) ... coalesce(r.refund_amount, 0)`:
one joined output value per matching aggregated row, a single `0` when
no row matches. -/
def joinRefund (agg : List (RKey × ℤ)) (k : RKey) : List ℤ :=
  match aggLookup agg k with
  | [] => [0]
  | vs => vs

/-- Sum of the amounts of the refund rows with key `k`. -/
def sumAt (rs : List Refund) (k : RKey) : ℤ :=
  ((rs.filter (fun r => decide (r.key = k))).map Refund.amount).sum

/-- Total refund amount the window attributes to key `k`: the direct
per-line sum the spec describes (`N` refund rows summing to `R`). -/
def refundTotal (rs : List Refund) (start_d end_d : ℕ) (k : RKey) : ℤ :=
  sumAt (rs.filter (fun r => inWindowB start_d end_d r.created_at)) k

/-- The inner join `mirakl.orders o join mirakl.order_lines ol on
ol.order_id = o.order_id and ol.marketplace_code = o.marketplace_code`. -/
def orderLinePairs (store : Store) : List (Order × OrderLine) :=
  store.orders.flatMap (fun o =>
    (store.order_lines.filter (fun ol =>
      decide (ol.order_id = o.order_id) &&
        decide (ol.marketplace_code = o.marketplace_code))).map (fun ol => (o, ol)))

/-- The `lines` CTE shared by `kpis` and `top_skus`: the join restricted to
`o.created_at` in the date window. -/
def windowedLines (store : Store) (start_d end_d : ℕ) : List (Order × OrderLine) :=
  (orderLinePairs store).filter (fun p => inWindowB start_d end_d p.1.created_at)

/-- Join key of a `lines` row: `ol.order_id, ol.line_id, o.marketplace_code`. -/
def lineKey (p : Order × OrderLine) : RKey := (p.2.order_id, p.2.line_id, p.1.marketplace_code)

/-- SQL `coalesce(ol.price_tax_excl,0)::numeric as price_ex`. -/
def OrderLine.price_ex (ol : OrderLine) : ℤ := ol.price_tax_excl.getD 0

/-- SQL `coalesce(ol.tax_amount,0)::numeric as tax`. -/
def OrderLine.tax (ol : OrderLine) : ℤ := ol.tax_amount.getD 0

/-- SQL `coalesce(ol.fees_total,0)::numeric`. -/
def OrderLine.feesD (ol : OrderLine) : ℤ := ol.fees_total.getD 0

/-- Row of the `joined` CTE of the `kpis` query. -/
structure KpisJRow where
  marketplace_code : String
  day : ℕ
  sku : String
  line_gmv : ℤ
  refunds : ℤ
  fees : ℤ
  deriving DecidableEq

/-- Columns actually selected by the `lines` CTE of the `kpis` query, as
written in the source. `price_incl` is absent, although the `joined` CTE
references `l.price_incl`, so the database rejects the whole query. -/
def kpisLinesSelectList : List String :=
  ["marketplace_code", "day", "sku", "qty", "price_ex", "tax", "ship_price",
   "fees_total", "order_id", "line_id"]

/-- One `joined` row of the `kpis` query for the pair `p`, carrying refund
amount `ra`. The source computes
`l.qty * coalesce(l.price_incl, l.price_ex + l.tax)`, but its `lines` CTE
never selects `price_incl` (see `kpisLinesSelectList`) — a static SQL
error. The dangling alias is resolved here to `ol.price_tax_incl`, the
column it names in the sibling `top_skus` query and the rule the spec
mandates; every other column is as the source selects it. -/
def kpisJRow (p : Order × OrderLine) (ra : ℤ) : KpisJRow :=
  ⟨p.1.marketplace_code, dayOf p.1.created_at, p.2.sku,
   p.2.qty * (p.2.price_tax_incl.getD (p.2.price_ex + p.2.tax)), ra, p.2.feesD⟩

/-- The `joined` CTE of the `kpis` query: lines left-joined to the
aggregated refunds, then filtered by the optional sku/marketplace params. -/
def kpisJoined (store : Store) (start_d end_d : ℕ) (mkt : Option (List String))
    (sku : Option String) : List KpisJRow :=
  ((windowedLines store start_d end_d).flatMap (fun p =>
    (joinRefund (refundsAgg store.refunds start_d end_d) (lineKey p)).map
      (kpisJRow p))).filter
    (fun r => skuMatch sku r.sku && mktMatch mkt r.marketplace_code)

/-- Output row of the `kpis` query. -/
structure KpiRow where
  marketplace_code : String
  day : ℕ
  gmv : ℤ
  refunds : ℤ
  fees : ℤ
  contribution : ℤ
  deriving DecidableEq

/-- Sort order `order by day, marketplace_code` of the `kpis` query,
on grouping keys `(marketplace_code, day)`. -/
abbrev kpisKeyOrder : (String × ℕ) → (String × ℕ) → Prop := fun a b =>
  a.2 < b.2 ∨ (a.2 = b.2 ∧ a.1 ≤ b.1)

/-- Final select of the `kpis` query: group the joined rows by
`(marketplace_code, day)`, sum the three measures, derive
`contribution = sum(line_gmv) - sum(refunds) - sum(fees)`, and order by
`day, marketplace_code`. -/
def kpisGroup (joined : List KpisJRow) : List KpiRow :=
  (((joined.map (fun r => (r.marketplace_code, r.day))).dedup).insertionSort
      kpisKeyOrder).map (fun k =>
    let grp := joined.filter (fun r =>
      decide (r.marketplace_code = k.1) && decide (r.day = k.2))
    ⟨k.1, k.2, (grp.map (fun r => r.line_gmv)).sum, (grp.map (fun r => r.refunds)).sum,
     (grp.map (fun r => r.fees)).sum,
     (grp.map (fun r => r.line_gmv)).sum - (grp.map (fun r => r.refunds)).sum -
       (grp.map (fun r => r.fees)).sum⟩)

/-- The SQL of `kpis` with its bound parameters. -/
def kpisQuery (store : Store) (start_d end_d : ℕ) (mkt : Option (List String))
    (sku : Option String) : List KpiRow :=
  kpisGroup (kpisJoined store start_d end_d mkt sku)

/-- The Python function `kpis(start_dt, end_dt, mkt_codes, sku_filter)`:
falsy filter arguments are normalized to SQL NULL before the query runs. -/
def kpis (store : Store) (start_dt end_dt : ℕ) (mkt_codes : Option (List String))
    (sku_filter : Option String) : List KpiRow :=
  kpisQuery store start_dt end_dt (normList mkt_codes) (normStr sku_filter)

/-- Row of the `joined` CTE of the `top_skus` query. -/
structure SkusJRow where
  marketplace_code : String
  sku : String
  qty : ℤ
  line_gmv : ℤ
  refunds : ℤ
  fees : ℤ
  deriving DecidableEq

/-- One `joined` row of `top_skus`: `line_gmv = l.qty * (l.price_ex + l.tax)`.
The `lines` CTE of this query selects `price_incl`
(`coalesce(ol.price_tax_incl, null)`), but `line_gmv` does not use it. -/
def skusJRow (p : Order × OrderLine) (ra : ℤ) : SkusJRow :=
  ⟨p.1.marketplace_code, p.2.sku, p.2.qty, p.2.qty * (p.2.price_ex + p.2.tax),
   ra, p.2.feesD⟩

/-- The `joined` CTE of the `top_skus` query. -/
def skusJoined (store : Store) (start_d end_d : ℕ) (mkt : Option (List String))
    (sku : Option String) : List SkusJRow :=
  ((windowedLines store start_d end_d).flatMap (fun p =>
    (joinRefund (refundsAgg store.refunds start_d end_d) (lineKey p)).map
      (skusJRow p))).filter
    (fun r => skuMatch sku r.sku && mktMatch mkt r.marketplace_code)

/-- Output row of the `top_skus` query. -/
structure SkuRow where
  marketplace_code : String
  sku : String
  units : ℤ
  gmv : ℤ
  refunds : ℤ
  fees : ℤ
  contribution : ℤ
  deriving DecidableEq

/-- Sort order `order by contribution desc` of the `top_skus` query. -/
abbrev skusOrder : SkuRow → SkuRow → Prop := fun a b => b.contribution ≤ a.contribution

/-- Final select of `top_skus`: group by `(marketplace_code, sku)`, sum
units and the three measures, derive contribution, order by contribution
descending. -/
def skusGroup (joined : List SkusJRow) : List SkuRow :=
  (((joined.map (fun r => (r.marketplace_code, r.sku))).dedup).map (fun k =>
    let grp := joined.filter (fun r =>
      decide (r.marketplace_code = k.1) && decide (r.sku = k.2))
    (⟨k.1, k.2, (grp.map (fun r => r.qty)).sum, (grp.map (fun r => r.line_gmv)).sum,
      (grp.map (fun r => r.refunds)).sum, (grp.map (fun r => r.fees)).sum,
      (grp.map (fun r => r.line_gmv)).sum - (grp.map (fun r => r.refunds)).sum -
        (grp.map (fun r => r.fees)).sum⟩ : SkuRow))).insertionSort skusOrder

/-- The SQL of `top_skus` with its bound parameters. -/
def skusQuery (store : Store) (start_d end_d : ℕ) (mkt : Option (List String))
    (sku : Option String) : List SkuRow :=
  skusGroup (skusJoined store start_d end_d mkt sku)

/-- The Python function `top_skus(start_dt, end_dt, mkt_codes, sku_filter)`. -/
def top_skus (store : Store) (start_dt end_dt : ℕ) (mkt_codes : Option (List String))
    (sku_filter : Option String) : List SkuRow :=
  skusQuery store start_dt end_dt (normList mkt_codes) (normStr sku_filter)

/-- SQL addition under null semantics: NULL when either operand is NULL. -/
def optAdd (a b : Option ℤ) : Option ℤ :=
  match a, b with
  | some x, some y => some (x + y)
  | _, _ => none

/-- SQL `coalesce(ol.price_tax_incl, ol.price_tax_excl + ol.tax_amount)`
of the `order_lines_table` query (note: no inner `coalesce(_, 0)`, so the
fallback is NULL when either summand is NULL). -/
def OrderLine.unit_gross (ol : OrderLine) : Option ℤ :=
  match ol.price_tax_incl with
  | some v => some v
  | none => optAdd ol.price_tax_excl ol.tax_amount

/-- Row of the `joined` CTE of the `order_lines_table` query (the query
then renames columns for display, which is presentational only). -/
structure DetailRow where
  day : ℕ
  marketplace_code : String
  order_id : ℕ
  line_id : ℕ
  sku : String
  qty : ℤ
  unit_gross : Option ℤ
  line_gmv : Option ℤ
  refunds : ℤ
  fees : ℤ
  deriving DecidableEq

/-- The `lines` CTE of `order_lines_table`: here the date window and the
optional sku/marketplace filters all sit in the CTE's WHERE clause. -/
def oltLines (store : Store) (start_d end_d : ℕ) (sku : Option String)
    (mkt : Option (List String)) : List (Order × OrderLine) :=
  (orderLinePairs store).filter (fun p =>
    inWindowB start_d end_d p.1.created_at && skuMatch sku p.2.sku &&
      mktMatch mkt p.1.marketplace_code)

/-- One `joined` row of `order_lines_table` for pair `p` with refund
amount `ra`. -/
def oltRow (p : Order × OrderLine) (ra : ℤ) : DetailRow :=
  ⟨dayOf p.1.created_at, p.1.marketplace_code, p.2.order_id, p.2.line_id,
   p.2.sku, p.2.qty, p.2.unit_gross, p.2.unit_gross.map (fun u => p.2.qty * u),
   ra, p.2.feesD⟩

/-- The `joined` CTE of `order_lines_table`. -/
def oltJoined (store : Store) (start_d end_d : ℕ) (sku : Option String)
    (mkt : Option (List String)) : List DetailRow :=
  (oltLines store start_d end_d sku mkt).flatMap (fun p =>
    (joinRefund (refundsAgg store.refunds start_d end_d) (lineKey p)).map (oltRow p))

/-- Sort order `order by day desc, order_id desc, line_id desc`. -/
abbrev oltOrderRel : DetailRow → DetailRow → Prop := fun a b =>
  b.day < a.day ∨ (b.day = a.day ∧
    (b.order_id < a.order_id ∨ (b.order_id = a.order_id ∧ b.line_id ≤ a.line_id)))

/-- The full ordered result of `order_lines_table` before the
OFFSET/LIMIT window; `count(*) over()` is its length. -/
def oltFull (store : Store) (start_d end_d : ℕ) (sku : Option String)
    (mkt : Option (List String)) : List DetailRow :=
  (oltJoined store start_d end_d sku mkt).insertionSort oltOrderRel

/-- Python `page = max(1, int(page)); offset = (page - 1) * limit`. -/
def pageOffset (page : ℤ) (page_size : ℕ) : ℤ := (max 1 page - 1) * page_size

/-- The Python function
`order_lines_table(start_date, end_date, sku, marketplaces, page, page_size)`:
returns the OFFSET/LIMIT window of the ordered joined result together with
the total row count, which the source reads from the `total_count` window
column of the first returned row — and sets to `0` when the page is empty
(`df.empty`). The `sku` parameter is bound as is; `marketplaces` is
normalized by `marketplaces if marketplaces else None`. -/
def order_lines_table (store : Store) (start_date end_date : ℕ) (sku : Option String)
    (marketplaces : Option (List String)) (page : ℤ) (page_size : ℕ) :
    List DetailRow × ℕ :=
  let full := oltFull store start_date end_date sku (normList marketplaces)
  let rows := (full.drop (pageOffset page page_size).toNat).take page_size
  (rows, if rows.isEmpty then 0 else full.length)

/-- Last valid page number in the sense of the spec:
`maxPage = ceil(totalCount / pageSize)`, minimum 1, computed from the true
total row count of the filtered result. -/
def maxPageOf (store : Store) (start_d end_d : ℕ) (sku : Option String)
    (mkt : Option (List String)) (page_size : ℕ) : ℕ :=
  max 1 (((oltFull store start_d end_d sku (normList mkt)).length + page_size - 1) / page_size)

/-- The pagination block of the UI (`show_orders`): fetch the requested
page, recompute `max_page = max(1, (total_rows + PAGE_SIZE - 1) // PAGE_SIZE)`
from the total the fetch returned, and when the requested page exceeds it,
clamp to it and re-fetch. -/
def fetchWithClamp (store : Store) (start_d end_d : ℕ) (sku : Option String)
    (mkt : Option (List String)) (page : ℤ) (page_size : ℕ) : List DetailRow × ℕ :=
  let r := order_lines_table store start_d end_d sku mkt page page_size
  let maxP : ℕ := max 1 ((r.2 + page_size - 1) / page_size)
  if (maxP : ℤ) < page then
    order_lines_table store start_d end_d sku mkt (maxP : ℤ) page_size
  else r

/-- The `kpis` pipeline with no filtering applied at all (the reference
result an absent filter must reproduce). -/
def kpisNoFilter (store : Store) (start_d end_d : ℕ) : List KpiRow :=
  kpisGroup ((windowedLines store start_d end_d).flatMap (fun p =>
    (joinRefund (refundsAgg store.refunds start_d end_d) (lineKey p)).map (kpisJRow p)))

/-- The `top_skus` pipeline with no filtering applied at all. -/
def topSkusNoFilter (store : Store) (start_d end_d : ℕ) : List SkuRow :=
  skusGroup ((windowedLines store start_d end_d).flatMap (fun p =>
    (joinRefund (refundsAgg store.refunds start_d end_d) (lineKey p)).map (skusJRow p)))

/-- The `order_lines_table` pipeline with only the date window applied
(no sku/marketplace filtering). -/
def oltNoFilterTable (store : Store) (start_d end_d : ℕ) (page : ℤ)
    (page_size : ℕ) : List DetailRow × ℕ :=
  let full := ((windowedLines store start_d end_d).flatMap (fun p =>
    (joinRefund (refundsAgg store.refunds start_d end_d) (lineKey p)).map
      (oltRow p))).insertionSort oltOrderRel
  let rows := (full.drop (pageOffset page page_size).toNat).take page_size
  (rows, if rows.isEmpty then 0 else full.length)

/-- Entry of a result cache: parameters, result, computation time. -/
structure CacheEntry (π α : Type) where
  params : π
  value : α
  computedAt : ℕ
  deriving DecidableEq

/-- Look up a cache entry by its parameter key. -/
def cacheFind {π α : Type} [DecidableEq π] (c : List (CacheEntry π α)) (p : π) :
    Option (CacheEntry π α) :=
  c.find? (fun e => decide (e.params = p))

/-- Modelled from the spec: the Result Cache (§4.4) provided by the external
`st.cache_data(ttl=...)` decorator, which is not part of this repository.
An entry is valid for `ttl` seconds from the time it was computed; a valid
hit returns the stored value with no recomputation; a miss or an expired
entry recomputes (one store round-trip, the returned flag) and replaces
the entry. -/
def cachedCall {π α : Type} [DecidableEq π] (ttl : ℕ) (f : π → α)
    (c : List (CacheEntry π α)) (p : π) (now : ℕ) :
    α × List (CacheEntry π α) × Bool :=
  match cacheFind c p with
  | some e =>
    if now < e.computedAt + ttl then (e.value, c, false)
    else (f p, ⟨p, f p, now⟩ :: c.filter (fun e2 => !decide (e2.params = p)), true)
  | none => (f p, ⟨p, f p, now⟩ :: c, true)

/-- Parameter tuple of `kpis` / `top_skus`:
(start date, end date, marketplace codes, sku filter). -/
abbrev AggParams : Type := ℕ × ℕ × Option (List String) × Option String

/-- The decorated `@st.cache_data(ttl=300) def kpis(...)` as called by the UI. -/
def cachedKpis (store : Store) (c : List (CacheEntry AggParams (List KpiRow)))
    (p : AggParams) (now : ℕ) :
    List KpiRow × List (CacheEntry AggParams (List KpiRow)) × Bool :=
  cachedCall 300 (fun q => kpis store q.1 q.2.1 q.2.2.1 q.2.2.2) c p now

/-- The decorated `@st.cache_data(ttl=300) def top_skus(...)`. -/
def cachedTopSkus (store : Store) (c : List (CacheEntry AggParams (List SkuRow)))
    (p : AggParams) (now : ℕ) :
    List SkuRow × List (CacheEntry AggParams (List SkuRow)) × Bool :=
  cachedCall 300 (fun q => top_skus store q.1 q.2.1 q.2.2.1 q.2.2.2) c p now

/-- Parameter tuple of `order_lines_table`. -/
structure OltParams where
  start_date : ℕ
  end_date : ℕ
  sku : Option String
  marketplaces : Option (List String)
  page : ℤ
  page_size : ℕ
  deriving DecidableEq

/-- A call to `order_lines_table`, which carries no `st.cache_data`
decorator in the source: every call runs the query against the store
(the flag records the store round-trip), whatever time it happens at. -/
def callOrderLineDetail (store : Store) (p : OltParams) (_now : ℕ) :
    (List DetailRow × ℕ) × Bool :=
  (order_lines_table store p.start_date p.end_date p.sku p.marketplaces
    p.page p.page_size, true)

/-- The three aggregation operations of the Profitability Aggregator. -/
inductive AggOp where
  | dailyKPIs
  | topSKUs
  | orderLineDetail
  deriving DecidableEq

/-- Cache time-to-live each aggregation operation is declared with in the
source: `kpis` and `top_skus` carry `@st.cache_data(ttl=300)`;
`order_lines_table` carries no cache decorator. -/
def aggCacheTTL : AggOp → Option ℕ
  | .dailyKPIs => some 300
  | .topSKUs => some 300
  | .orderLineDetail => none

/-- Epoch-day number of 2024-01-01. -/
def d20240101 : ℕ := 19723

/-- Epoch-day number of 2024-01-05. -/
def d20240105 : ℕ := 19727

/-- Epoch-day number of 2024-01-06. -/
def d20240106 : ℕ := 19728

/-- Epoch-day number of 2024-01-31. -/
def d20240131 : ℕ := 19753

/-- Empty store. -/
def store0 : Store := ⟨[], [], []⟩

/-- Store with one order (FR, 2024-01-05) and one line
(sku "A1", qty 1, price_tax_incl 10.00, everything else NULL). -/
def storeA : Store :=
  ⟨[⟨1, "FR", d20240105 * secondsPerDay⟩],
   [⟨1, "FR", 1, "A1", 1, none, some 1000, none, none, none⟩],
   []⟩

/-- Store with one order line whose tax-inclusive and tax-exclusive prices
disagree: price_tax_excl 5.00, tax_amount 1.00, price_tax_incl 10.00. -/
def storeB : Store :=
  ⟨[⟨1, "FR", d20240105 * secondsPerDay⟩],
   [⟨1, "FR", 1, "A1", 1, some 500, some 1000, some 100, none, none⟩],
   []⟩

/-- The spec's example scenario: one order (id 1, FR, 2024-01-05) with one
line (sku "A1", qty 2, price_tax_incl 10.00) and one refund
(order 1, line 1, amount_tax_excl 2.00, tax_amount 0.40, dated in-window). -/
def storeC : Store :=
  ⟨[⟨1, "FR", d20240105 * secondsPerDay⟩],
   [⟨1, "FR", 1, "A1", 2, none, some 1000, none, none, none⟩],
   [⟨1, 1, "FR", d20240105 * secondsPerDay, some 200, some 40⟩]⟩

/-- Store with two orders on different days, one line each, so that the
detail view has two rows and two pages at page_size 1. -/
def storeD : Store :=
  ⟨[⟨1, "FR", d20240105 * secondsPerDay⟩, ⟨2, "FR", d20240106 * secondsPerDay⟩],
   [⟨1, "FR", 1, "A1", 1, some 500, some 1000, some 100, none, none⟩,
    ⟨2, "FR", 1, "B2", 1, some 300, some 700, some 100, none, none⟩],
   []⟩

/-- Concrete aggregation-call parameters for the cache witnesses. -/
def aggParams0 : AggParams := (d20240101, d20240131, none, none)

/-- Concrete detail-view parameters for the cache counterexample. -/
def oltParams0 : OltParams := ⟨d20240101, d20240131, none, none, 1, 100⟩

theorem aggLookup_insert_ne (acc : List (RKey × ℤ)) (k k' : RKey) (v : ℤ)
    (h : k ≠ k') : aggLookup (aggInsert acc k v) k' = aggLookup acc k' := by
  induction acc with
  | nil => simp [aggInsert, aggLookup, h]
  | cons e es ih =>
    by_cases he : e.1 = k
    · simp [aggInsert, aggLookup, he, h]
    · by_cases he' : e.1 = k'
      · simp [aggInsert, aggLookup, he, he', ih, Ne.symm h]
      · simp [aggInsert, aggLookup, he, he', ih]

theorem aggLookup_insert_eq (acc : List (RKey × ℤ)) (k : RKey) (v : ℤ) :
    aggLookup (aggInsert acc k v) k =
      match aggLookup acc k with
      | [] => [v]
      | w :: ws => (w + v) :: ws := by
  induction acc with
  | nil => simp [aggInsert, aggLookup]
  | cons e es ih =>
    by_cases he : e.1 = k
    · simp [aggInsert, aggLookup, he]
    · simp [aggInsert, aggLookup, he, ih]

theorem sumAt_cons_eq {r : Refund} {k : RKey} (rs : List Refund) (h : r.key = k) :
    sumAt (r :: rs) k = r.amount + sumAt rs k := by
  simp [sumAt, List.filter_cons, h]

theorem sumAt_cons_ne {r : Refund} {k : RKey} (rs : List Refund) (h : ¬r.key = k) :
    sumAt (r :: rs) k = sumAt rs k := by
  simp [sumAt, List.filter_cons, h]

theorem aggLookup_foldAgg (rs : List Refund) : ∀ (acc : List (RKey × ℤ)) (k : RKey),
    aggLookup (foldAgg acc rs) k =
      match aggLookup acc k with
      | [] => if rs.any (fun r => decide (r.key = k)) then [sumAt rs k] else []
      | w :: ws => (w + sumAt rs k) :: ws := by
  induction rs with
  | nil =>
    intro acc k
    cases h : aggLookup acc k <;> simp [foldAgg, h, sumAt]
  | cons r rs ih =>
    intro acc k
    have hfold : foldAgg acc (r :: rs) = foldAgg (aggInsert acc r.key r.amount) rs := rfl
    rw [hfold, ih]
    by_cases hk : r.key = k
    · subst hk
      rw [aggLookup_insert_eq]
      cases h : aggLookup acc r.key with
      | nil => simp [h, sumAt_cons_eq rs rfl]
      | cons w ws => simp [h, sumAt_cons_eq rs rfl, add_assoc]
    · rw [aggLookup_insert_ne acc r.key k r.amount hk]
      cases h : aggLookup acc k with
      | nil => simp [h, sumAt_cons_ne rs hk, hk]
      | cons w ws => simp [h, sumAt_cons_ne rs hk]

theorem joinRefund_refundsAgg (rs : List Refund) (sd ed : ℕ) (k : RKey) :
    joinRefund (refundsAgg rs sd ed) k = [refundTotal rs sd ed k] := by
  unfold joinRefund refundsAgg refundTotal
  rw [aggLookup_foldAgg]
  by_cases h : (rs.filter (fun r => inWindowB sd ed r.created_at)).any
      (fun r => decide (r.key = k))
  · simp [aggLookup, h]
  · have hnil : (rs.filter (fun r => inWindowB sd ed r.created_at)).filter
        (fun r => decide (r.key = k)) = [] := by
      rw [List.filter_eq_nil_iff]
      intro a ha
      simp only [List.any_eq_true, not_exists, not_and] at h
      simp [h a ha]
    simp [aggLookup, h, sumAt, hnil]

theorem flatMap_eq_map_of_singleton {α β : Type} (L : List α) (g : α → List β)
    (f : α → β) (h : ∀ a ∈ L, g a = [f a]) : L.flatMap g = L.map f := by
  induction L with
  | nil => rfl
  | cons x xs ih =>
    rw [List.flatMap_cons, h x (List.mem_cons_self x xs),
      ih (fun a ha => h a (List.mem_cons_of_mem x ha)), List.map_cons,
      List.singleton_append]

/-- Claim C3: in each of the three aggregation operations, the joined
result carries exactly one row per order line, whose refund measure is the
single total `R` of that line's in-window refund rows — never `N` copies of
the line and never a per-row multiplied refund — because the refunds are
summed per (order_id, line_id, marketplace_code) before the left join. -/
theorem c3_refund_preaggregation (store : Store) (sd ed : ℕ)
    (mkt : Option (List String)) (sku : Option String) :
    kpisJoined store sd ed mkt sku =
      ((windowedLines store sd ed).map (fun p =>
        kpisJRow p (refundTotal store.refunds sd ed (lineKey p)))).filter
        (fun r => skuMatch sku r.sku && mktMatch mkt r.marketplace_code)
    ∧ skusJoined store sd ed mkt sku =
      ((windowedLines store sd ed).map (fun p =>
        skusJRow p (refundTotal store.refunds sd ed (lineKey p)))).filter
        (fun r => skuMatch sku r.sku && mktMatch mkt r.marketplace_code)
    ∧ oltJoined store sd ed sku mkt =
      (oltLines store sd ed sku mkt).map (fun p =>
        oltRow p (refundTotal store.refunds sd ed (lineKey p))) := by
  refine ⟨?_, ?_, ?_⟩
  · unfold kpisJoined
    rw [flatMap_eq_map_of_singleton (windowedLines store sd ed) _
      (fun p => kpisJRow p (refundTotal store.refunds sd ed (lineKey p)))]
    intro p _
    rw [joinRefund_refundsAgg]
    rfl
  · unfold skusJoined
    rw [flatMap_eq_map_of_singleton (windowedLines store sd ed) _
      (fun p => skusJRow p (refundTotal store.refunds sd ed (lineKey p)))]
    intro p _
    rw [joinRefund_refundsAgg]
    rfl
  · unfold oltJoined
    rw [flatMap_eq_map_of_singleton (oltLines store sd ed sku mkt) _
      (fun p => oltRow p (refundTotal store.refunds sd ed (lineKey p)))]
    intro p _
    rw [joinRefund_refundsAgg]
    rfl

theorem refundsAgg_filter_window (rs : List Refund) (sd ed : ℕ) :
    refundsAgg (rs.filter (fun r => inWindowB sd ed r.created_at)) sd ed =
      refundsAgg rs sd ed := by
  unfold refundsAgg
  congr 1
  apply List.filter_eq_self.mpr
  intro a ha
  exact (List.mem_filter.mp ha).2

/-- Claim C9: in all three aggregation operations, a refund row contributes
to the refund sum of its line only when its own `created_at` lies in the
half-open window `[start, end_date + 1 day)`: deleting every out-of-window
refund row from the store changes none of the three results, so the
refunds a line carries depend on the query's date range. -/
theorem c9_refund_window_restriction (store : Store) (sd ed : ℕ)
    (mkt : Option (List String)) (sku : Option String) (page : ℤ)
    (page_size : ℕ) :
    kpis (Store.mk store.orders store.order_lines
        (store.refunds.filter (fun r => inWindowB sd ed r.created_at)))
        sd ed mkt sku = kpis store sd ed mkt sku
    ∧ top_skus (Store.mk store.orders store.order_lines
        (store.refunds.filter (fun r => inWindowB sd ed r.created_at)))
        sd ed mkt sku = top_skus store sd ed mkt sku
    ∧ order_lines_table (Store.mk store.orders store.order_lines
        (store.refunds.filter (fun r => inWindowB sd ed r.created_at)))
        sd ed sku mkt page page_size =
      order_lines_table store sd ed sku mkt page page_size := by
  have hagg := refundsAgg_filter_window store.refunds sd ed
  refine ⟨?_, ?_, ?_⟩
  · simp only [kpis, kpisQuery, kpisJoined, windowedLines, orderLinePairs, hagg]
  · simp only [top_skus, skusQuery, skusJoined, windowedLines, orderLinePairs, hagg]
  · simp only [order_lines_table, oltFull, oltJoined, oltLines, orderLinePairs, hagg]

theorem kpisJoined_none_none (store : Store) (sd ed : ℕ) :
    kpisJoined store sd ed none none =
      (windowedLines store sd ed).flatMap (fun p =>
        (joinRefund (refundsAgg store.refunds sd ed) (lineKey p)).map (kpisJRow p)) := by
  unfold kpisJoined
  apply List.filter_true

theorem skusJoined_none_none (store : Store) (sd ed : ℕ) :
    skusJoined store sd ed none none =
      (windowedLines store sd ed).flatMap (fun p =>
        (joinRefund (refundsAgg store.refunds sd ed) (lineKey p)).map (skusJRow p)) := by
  unfold skusJoined
  apply List.filter_true

theorem oltLines_none_none (store : Store) (sd ed : ℕ) :
    oltLines store sd ed none none = windowedLines store sd ed := by
  unfold oltLines windowedLines
  apply List.filter_congr
  intro p _
  simp [skuMatch, mktMatch]

/-- Claim C7 counterexample: the claim asserts that an absent SKU filter —
null or the empty string — makes every operation behave as unfiltered, but
`order_lines_table` binds its `sku` argument without the falsy-to-None
normalization, so an empty-string SKU is a literal equality filter there
and matches nothing on a store whose only line has SKU "A1". -/
theorem c7_empty_sku_filters_detail :
    order_lines_table storeA d20240101 d20240131 (some "") none 1 100 = ([], 0) ∧
    order_lines_table storeA d20240101 d20240131 none none 1 100 ≠ ([], 0) := by
  decide

/-- Claim C7 as amended: a null SKU filter and a null or empty marketplace
list act as "no filter" in all three operations, and the empty-string SKU
additionally acts as "no filter" in `kpis` and `top_skus` (whose Python
wrappers normalize falsy arguments to None); only `order_lines_table`
treats an empty-string SKU as a literal filter. -/
theorem c7_absent_filters_pass_through (store : Store) (sd ed : ℕ) (page : ℤ)
    (page_size : ℕ) :
    kpis store sd ed (some []) (some "") = kpisNoFilter store sd ed
    ∧ kpis store sd ed none none = kpisNoFilter store sd ed
    ∧ top_skus store sd ed (some []) (some "") = topSkusNoFilter store sd ed
    ∧ top_skus store sd ed none none = topSkusNoFilter store sd ed
    ∧ order_lines_table store sd ed none (some []) page page_size =
        oltNoFilterTable store sd ed page page_size
    ∧ order_lines_table store sd ed none none page page_size =
        oltNoFilterTable store sd ed page page_size := by
  have hk : kpisQuery store sd ed none none = kpisNoFilter store sd ed := by
    unfold kpisQuery kpisNoFilter
    rw [kpisJoined_none_none]
  have hs : skusQuery store sd ed none none = topSkusNoFilter store sd ed := by
    unfold skusQuery topSkusNoFilter
    rw [skusJoined_none_none]
  have ho : order_lines_table store sd ed none none page page_size =
      oltNoFilterTable store sd ed page page_size := by
    simp only [order_lines_table, oltNoFilterTable, oltFull, oltJoined, normList,
      oltLines_none_none]
  refine ⟨hk, hk, hs, hs, ?_, ho⟩
  · simp only [order_lines_table, normList] at ho ⊢
    exact ho

/-- Claim C5: in every row returned by `kpis` and by `top_skus`, the
contribution equals gmv minus refunds minus fees, each taken from that
row's post-grouping sums. -/
theorem c5_contribution_formula (store : Store) (sd ed : ℕ)
    (mkt : Option (List String)) (sku : Option String) (r1 : KpiRow) (r2 : SkuRow)
    (h1 : r1 ∈ kpis store sd ed mkt sku) (h2 : r2 ∈ top_skus store sd ed mkt sku) :
    r1.contribution = r1.gmv - r1.refunds - r1.fees ∧
    r2.contribution = r2.gmv - r2.refunds - r2.fees := by
  constructor
  · unfold kpis kpisQuery kpisGroup at h1
    obtain ⟨k, _, hr⟩ := List.mem_map.mp h1
    subst hr
    rfl
  · unfold top_skus skusQuery skusGroup at h2
    have h2' := (List.perm_insertionSort skusOrder _).mem_iff.mp h2
    obtain ⟨k, _, hr⟩ := List.mem_map.mp h2'
    subst hr
    rfl

/-- Witness for C5 at a concrete store: the single row each of the two
operations returns on `storeA` satisfies the contribution identity. -/
theorem c5_contribution_formula_witness :
    ((⟨"FR", d20240105, 1000, 0, 0, 1000⟩ : KpiRow).contribution =
      (⟨"FR", d20240105, 1000, 0, 0, 1000⟩ : KpiRow).gmv -
        (⟨"FR", d20240105, 1000, 0, 0, 1000⟩ : KpiRow).refunds -
        (⟨"FR", d20240105, 1000, 0, 0, 1000⟩ : KpiRow).fees) ∧
    ((⟨"FR", "A1", 1, 0, 0, 0, 0⟩ : SkuRow).contribution =
      (⟨"FR", "A1", 1, 0, 0, 0, 0⟩ : SkuRow).gmv -
        (⟨"FR", "A1", 1, 0, 0, 0, 0⟩ : SkuRow).refunds -
        (⟨"FR", "A1", 1, 0, 0, 0, 0⟩ : SkuRow).fees) :=
  c5_contribution_formula storeA d20240101 d20240131 none none _ _
    (by decide) (by decide)

theorem chunk_flatMap {α : Type} (s : ℕ) :
    ∀ (n : ℕ) (L : List α), L.length ≤ n * s →
      (List.range n).flatMap (fun i => (L.drop (i * s)).take s) = L := by
  intro n
  induction n with
  | zero =>
    intro L hL
    have h0 : L.length = 0 := Nat.le_zero.mp (by simpa using hL)
    have : L = [] := List.eq_nil_of_length_eq_zero h0
    simp [this]
  | succ n ih =>
    intro L hL
    rw [List.range_succ_eq_map, List.flatMap_cons, List.flatMap_map]
    have hfun : (fun i : ℕ => (L.drop (Nat.succ i * s)).take s) =
        (fun i => ((L.drop s).drop (i * s)).take s) := by
      funext i
      rw [List.drop_drop]
      congr 1
      rw [Nat.succ_mul, Nat.add_comm]
    rw [hfun]
    have hlen : (L.drop s).length ≤ n * s := by
      rw [List.length_drop]
      rw [Nat.succ_mul] at hL
      omega
    rw [ih (L.drop s) hlen]
    simp

theorem len_le_maxPage_mul (len s : ℕ) (hs : 0 < s) :
    len ≤ (max 1 ((len + s - 1) / s)) * s := by
  rcases Nat.eq_zero_or_pos len with h0 | hpos
  · subst h0
    exact Nat.zero_le _
  · have h1 : 1 ≤ (len + s - 1) / s := by
      rw [Nat.le_div_iff_mul_le hs]
      omega
    rw [max_eq_right h1, Nat.mul_comm]
    have hq := Nat.div_add_mod (len + s - 1) s
    have hr : (len + s - 1) % s < s := Nat.mod_lt _ hs
    omega

theorem offset_lt_len (len s i : ℕ) (hs : 0 < s) (hpos : 0 < len)
    (hi : i < max 1 ((len + s - 1) / s)) : i * s < len := by
  have h1 : 1 ≤ (len + s - 1) / s := by
    rw [Nat.le_div_iff_mul_le hs]
    omega
  rw [max_eq_right h1] at hi
  have hsplit : len + s - 1 = (len - 1) + s := by omega
  rw [hsplit, Nat.add_div_right _ hs] at hi
  have hi' : i ≤ (len - 1) / s := Nat.lt_succ_iff.mp hi
  have h2 : i * s ≤ ((len - 1) / s) * s := Nat.mul_le_mul_right s hi'
  have h3 : ((len - 1) / s) * s ≤ len - 1 := Nat.div_mul_le_self _ _
  omega

theorem pageOffset_natPage (i s : ℕ) : (pageOffset ((i : ℤ) + 1) s).toNat = i * s := by
  unfold pageOffset
  rw [max_eq_right (by omega : (1 : ℤ) ≤ (i : ℤ) + 1)]
  rw [show (i : ℤ) + 1 - 1 = (i : ℤ) by ring]
  rw [← Nat.cast_mul]
  exact Int.toNat_natCast _

theorem olt_rows_at (store : Store) (sd ed : ℕ) (sku : Option String)
    (mkt : Option (List String)) (i s : ℕ) :
    order_lines_table store sd ed sku mkt ((i : ℤ) + 1) s =
      (((oltFull store sd ed sku (normList mkt)).drop (i * s)).take s,
       if (((oltFull store sd ed sku (normList mkt)).drop (i * s)).take s).isEmpty
       then 0 else (oltFull store sd ed sku (normList mkt)).length) := by
  simp only [order_lines_table]
  rw [pageOffset_natPage]

/-- Claim C6 counterexample: the claim says `totalCount` is the same for
every requested page, but on a store whose detail view has exactly one
row, page 1 reports total 1 while page 2 — empty, so the source's
`df.empty` branch fires — reports total 0. -/
theorem c6_total_count_differs_across_pages :
    (order_lines_table storeA d20240101 d20240131 none none 1 1).2 = 1 ∧
    (order_lines_table storeA d20240101 d20240131 none none 2 1).2 = 0 := by
  decide

/-- Claim C6 as amended: for pages 1 through maxPage the reported
totalCount equals the true number of joined rows, and concatenating pages
1 through maxPage in order reproduces the full ordered result with no
duplicate and no missing rows, for any pageSize ≥ 1; a page beyond maxPage
of a nonempty result, however, reports totalCount 0 (see the
counterexample). Page `i+1` here ranges over `i < maxPage`. -/
theorem c6_pagination_partition (store : Store) (sd ed : ℕ) (sku : Option String)
    (mkt : Option (List String)) (s i : ℕ) (hs : 1 ≤ s)
    (hi : i < maxPageOf store sd ed sku mkt s) :
    (order_lines_table store sd ed sku mkt ((i : ℤ) + 1) s).2 =
      (oltFull store sd ed sku (normList mkt)).length
    ∧ (List.range (maxPageOf store sd ed sku mkt s)).flatMap
        (fun j => (order_lines_table store sd ed sku mkt ((j : ℤ) + 1) s).1) =
      oltFull store sd ed sku (normList mkt) := by
  unfold maxPageOf at hi ⊢
  constructor
  · rw [olt_rows_at]
    generalize oltFull store sd ed sku (normList mkt) = L at hi ⊢
    rcases Nat.eq_zero_or_pos L.length with h0 | hpos
    · have hnil : L = [] := List.eq_nil_of_length_eq_zero h0
      simp [hnil]
    · have hlt : i * s < L.length := offset_lt_len L.length s i hs hpos hi
      have hlen : 0 < ((L.drop (i * s)).take s).length := by
        rw [List.length_take, List.length_drop]
        omega
      have hne : ((L.drop (i * s)).take s).isEmpty = false := by
        cases hemp : ((L.drop (i * s)).take s).isEmpty
        · rfl
        · rw [List.isEmpty_iff] at hemp
          rw [hemp] at hlen
          simp at hlen
      rw [hne]
      simp
  · have hfun : (fun j : ℕ => (order_lines_table store sd ed sku mkt ((j : ℤ) + 1) s).1) =
        (fun j => ((oltFull store sd ed sku (normList mkt)).drop (j * s)).take s) := by
      funext j
      rw [olt_rows_at]
    rw [hfun]
    generalize oltFull store sd ed sku (normList mkt) = L
    exact chunk_flatMap s _ L (len_le_maxPage_mul L.length s hs)

/-- Witness for C6 at a concrete store with one detail row, pageSize 1,
page 1 (= maxPage). -/
theorem c6_pagination_partition_witness :
    (order_lines_table storeA d20240101 d20240131 none none (((0 : ℕ) : ℤ) + 1) 1).2 =
      (oltFull storeA d20240101 d20240131 none (normList none)).length
    ∧ (List.range (maxPageOf storeA d20240101 d20240131 none none 1)).flatMap
        (fun j => (order_lines_table storeA d20240101 d20240131 none none ((j : ℤ) + 1) 1).1) =
      oltFull storeA d20240101 d20240131 none (normList none) :=
  c6_pagination_partition storeA d20240101 d20240131 none none 1 0
    (by decide) (by decide)

/-- Claim C10: `order_lines_table` is total over all integer page inputs:
any page value at most 1 — including 0 and negatives — behaves exactly as
page 1, and the computed offset is 0 (in particular never negative),
because the source floors the page at 1 before computing the offset. -/
theorem c10_page_floor (store : Store) (sd ed : ℕ) (sku : Option String)
    (mkt : Option (List String)) (s : ℕ) (p : ℤ) (hp : p ≤ 1) :
    order_lines_table store sd ed sku mkt p s =
      order_lines_table store sd ed sku mkt 1 s
    ∧ 0 ≤ pageOffset p s ∧ pageOffset p s = 0 := by
  have hoff : pageOffset p s = 0 := by
    unfold pageOffset
    rw [max_eq_left hp]
    ring
  have hoff1 : pageOffset 1 s = 0 := by
    unfold pageOffset
    simp
  refine ⟨?_, by rw [hoff], hoff⟩
  simp only [order_lines_table, hoff, hoff1]

/-- Witness for C10 at page 0 on a concrete store. -/
theorem c10_page_floor_witness :
    order_lines_table storeA d20240101 d20240131 none none 0 1 =
      order_lines_table storeA d20240101 d20240131 none none 1 1
    ∧ 0 ≤ pageOffset 0 1 ∧ pageOffset 0 1 = 0 :=
  c10_page_floor storeA d20240101 d20240131 none none 1 0 (by decide)

/-- Claim C1 (code bug): the unit gross price is not applied uniformly.
On a line with price_tax_excl 5.00, tax_amount 1.00 and a non-null
price_tax_incl of 10.00 (store `storeB`), `top_skus` reports a line GMV of
6.00 — `qty * (price_ex + tax)`, ignoring the tax-inclusive price it even
selects — while `order_lines_table` on the same store reports the claimed
10.00; `kpis` cannot run at all (see `c2_kpis_example_scenario`). -/
theorem c1_top_skus_ignores_price_tax_incl :
    top_skus storeB d20240101 d20240131 none none =
      [⟨"FR", "A1", 1, 600, 0, 0, 600⟩]
    ∧ (600 : ℤ) ≠ 1 * 1000
    ∧ (order_lines_table storeB d20240101 d20240131 none none 1 100).1 =
      [⟨d20240105, "FR", 1, 1, "A1", 1, some 1000, some 1000, 0, 0⟩] := by
  decide

/-- Claim C2 (code bug): the `joined` CTE of `kpis` references
`l.price_incl`, a column its `lines` CTE never selects, so the query as
written fails on every call instead of returning the expected row. With
that one dangling reference resolved to `ol.price_tax_incl` (the spec's
stated rule), the spec's example scenario — one order (FR, 2024-01-05),
one line (sku "A1", qty 2, price_tax_incl 10.00), one refund of
2.00 + 0.40 — produces exactly one row with gmv 20.00, refunds 2.40,
fees 0.00, contribution 17.60 (amounts in hundredths). -/
theorem c2_kpis_example_scenario :
    "price_incl" ∉ kpisLinesSelectList
    ∧ kpis storeC d20240101 d20240131 none none =
      [⟨"FR", d20240105, 2000, 240, 0, 1760⟩] := by
  decide

/-- Claim C4 (code bug): on a store whose detail view has two rows
(`storeD`) at pageSize 1, the true maxPage is 2, yet requesting page
maxPage + 1 = 3 makes the out-of-range fetch return an empty frame with
totalCount 0, so the UI clamp computes max_page = 1 and re-fetches page 1 —
not page 2 as the claim requires. -/
theorem c4_clamp_lands_on_page_one :
    maxPageOf storeD d20240101 d20240131 none none 1 = 2
    ∧ fetchWithClamp storeD d20240101 d20240131 none none (2 + 1) 1 ≠
      order_lines_table storeD d20240101 d20240131 none none 2 1
    ∧ fetchWithClamp storeD d20240101 d20240131 none none (2 + 1) 1 =
      order_lines_table storeD d20240101 d20240131 none none 1 1 := by
  decide

/-- Claim C8 counterexample: the claim extends the 300-second cache policy
to `orderLineDetail`, but `order_lines_table` carries no cache decorator
in the source: a repeat call with identical parameters 5 seconds after a
first call still performs a store round-trip. -/
theorem c8_order_line_detail_uncached :
    aggCacheTTL AggOp.orderLineDetail = none
    ∧ (callOrderLineDetail store0 oltParams0 0).2 = true
    ∧ (callOrderLineDetail store0 oltParams0 5).2 = true := by
  decide

/-- Claim C8 as amended: for the two decorated operations `kpis` and
`top_skus`, a second call with identical parameters before the 300-second
TTL expires returns the identical cached result with no store round-trip,
and a call at or after expiry recomputes and replaces the cached entry;
`order_lines_table` is not cached (see the counterexample). -/
theorem c8_cache_ttl_policy (store : Store) (p : AggParams) (t1 t2 t3 : ℕ)
    (h2 : t2 < t1 + 300) (h3 : t1 + 300 ≤ t3) :
    (cachedKpis store ((cachedKpis store [] p t1).2.1) p t2 =
      ((cachedKpis store [] p t1).1, (cachedKpis store [] p t1).2.1, false))
    ∧ (cachedKpis store ((cachedKpis store [] p t1).2.1) p t3 =
      ((cachedKpis store [] p t1).1,
       [⟨p, (cachedKpis store [] p t1).1, t3⟩], true))
    ∧ (cachedTopSkus store ((cachedTopSkus store [] p t1).2.1) p t2 =
      ((cachedTopSkus store [] p t1).1, (cachedTopSkus store [] p t1).2.1, false))
    ∧ (cachedTopSkus store ((cachedTopSkus store [] p t1).2.1) p t3 =
      ((cachedTopSkus store [] p t1).1,
       [⟨p, (cachedTopSkus store [] p t1).1, t3⟩], true)) := by
  have h3' : ¬t3 < t1 + 300 := not_lt.mpr h3
  refine ⟨?_, ?_, ?_, ?_⟩ <;>
    simp [cachedKpis, cachedTopSkus, cachedCall, cacheFind, List.find?, h2, h3']

/-- Witness for C8 on the empty store with calls at times 0, 5 and 300. -/
theorem c8_cache_ttl_policy_witness :
    (cachedKpis store0 ((cachedKpis store0 [] aggParams0 0).2.1) aggParams0 5 =
      ((cachedKpis store0 [] aggParams0 0).1,
       (cachedKpis store0 [] aggParams0 0).2.1, false))
    ∧ (cachedKpis store0 ((cachedKpis store0 [] aggParams0 0).2.1) aggParams0 300 =
      ((cachedKpis store0 [] aggParams0 0).1,
       [⟨aggParams0, (cachedKpis store0 [] aggParams0 0).1, 300⟩], true))
    ∧ (cachedTopSkus store0 ((cachedTopSkus store0 [] aggParams0 0).2.1) aggParams0 5 =
      ((cachedTopSkus store0 [] aggParams0 0).1,
       (cachedTopSkus store0 [] aggParams0 0).2.1, false))
    ∧ (cachedTopSkus store0 ((cachedTopSkus store0 [] aggParams0 0).2.1) aggParams0 300 =
      ((cachedTopSkus store0 [] aggParams0 0).1,
       [⟨aggParams0, (cachedTopSkus store0 [] aggParams0 0).1, 300⟩], true)) :=
  c8_cache_ttl_policy store0 aggParams0 0 5 300 (by decide) (by decide)
